import Mathlib

/-!
Shallow embedding of `src/caludecorrecao.py`, the real-time auto-detecting
translator pipeline (class `RaspberryPiAutoTranslator`).

External collaborators (speech recognition, the langdetect statistical model,
the Google translate service with its detection call, the voice list) are
black boxes: they are modelled as an explicit environment of functions whose
`Option` results stand for value-or-exception outcomes.  `ℚ` models the
real-valued detection confidence; only order comparisons on it occur in the
code, so the rational model preserves the semantics of the float comparison.

Observable behaviour of one processing cycle is a trace of events: console
lines, translation-service calls, and speech-synthesis invocations.
-/

namespace AutoTranslator

/-- One observable event of a processing cycle: a printed console line, a call
to the external translation service, or a speech-synthesis invocation
(`_speak_text`, whose internal faults the code swallows). -/
inductive Event where
  | line (s : String)
  | transCall (text src dst : String)
  | speak (text lang : String)
deriving DecidableEq, Repr

/-- The black-box external services, parametric in the audio sample type `α`.
Each `Option`/`none` result models the corresponding Python exception:
`recognize` is `recognizer.recognize_google` (`none` = UnknownValueError or
RequestError), `langdetect` is the primary `detect` (`none` =
LangDetectException), `googleDetect` is `translator.detect` returning a
language code and a confidence (`none` = any exception), `googleTranslate` is
`translator.translate(...).text` (`none` = any exception), and `langNames` is
the `googletrans.LANGUAGES` dictionary. -/
structure Env (α : Type) where
  recognize : α → Option String
  langdetect : String → Option String
  googleDetect : String → Option (String × ℚ)
  googleTranslate : String → String → String → Option String
  langNames : String → Option String

/-- The mutable fields of `RaspberryPiAutoTranslator` that the pipeline logic
reads or writes: `default_target_lang`, `last_detected_lang`, and the
`detection_confidence` threshold. -/
structure TranslatorState where
  default_target_lang : String
  last_detected_lang : Option String
  detection_confidence : ℚ
deriving DecidableEq, Repr

/-- `__init__(default_target_lang)`: `last_detected_lang = None` and
`detection_confidence = 0.8`. -/
def initState (d : String) : TranslatorState :=
  { default_target_lang := d, last_detected_lang := none, detection_confidence := 8/10 }

/-- Python truthiness of an `Optional[str]`: `None` and the empty string are
falsy, every other string is truthy. -/
def truthy : Option String → Bool
  | none => false
  | some s => decide (s ≠ "")

/-- `_detect_language`: try the langdetect library first; on its failure fall
back to the Google detection call and accept its result only when the reported
confidence is strictly greater than the configured threshold; any fallback
exception or rejected low-confidence guess yields `None`. -/
def _detect_language (env : Env α) (s : TranslatorState) (text : String) : Option String :=
  match env.langdetect text with
  | some detected => some detected
  | none =>
      match env.googleDetect text with
      | some (lang, conf) =>
          if conf > s.detection_confidence then some lang else none
      | none => none

/-- `_recognize_speech`: the Google speech-recognition call with both its
exception cases normalised to `None`. -/
def _recognize_speech (env : Env α) (a : α) : Option String :=
  env.recognize a

/-- `_determine_target_language`: if the source equals the configured default
target, switch to English, otherwise use the default target. -/
def _determine_target_language (s : TranslatorState) (source_lang : String) : String :=
  if source_lang = s.default_target_lang then "en" else s.default_target_lang

/-- `_translate_text`: identity short-circuit when source and target language
coincide, otherwise one call to the translation service (whose exceptions
yield `None`).  The second component counts the service calls performed. -/
def _translate_text (env : Env α) (text source_lang target_lang : String) :
    Option String × Nat :=
  if source_lang = target_lang then (some text, 0)
  else (env.googleTranslate text source_lang target_lang, 1)

/-- `_get_language_name`: `googletrans.LANGUAGES.get(code, code.upper())`. -/
def _get_language_name (env : Env α) (code : String) : String :=
  (env.langNames code).getD code.toUpper

/-- The separator line printed after each utterance report. -/
def sepLine : String := String.mk (List.replicate 50 '-')

/-- The console output of the unknown-language branch of the processing loop. -/
def unknownEvents (text : String) : List Event :=
  [Event.line ("\n[UNKNOWN LANGUAGE] " ++ text),
   Event.line "Could not detect language for translation",
   Event.line sepLine]

/-- The tail of one processing cycle after a truthy language was detected,
with `last_detected_lang` already overwritten in `s1`: resolve the target
language, translate, print the report lines, and speak the translation when
the result is truthy and the languages differ (the guard
`if translated and detected_lang != target_lang` of the Python code). -/
def report_step (env : Env α) (s1 : TranslatorState) (text detected : String) :
    TranslatorState × List Event :=
  let target := _determine_target_language s1 detected
  let tr := _translate_text env text detected target
  let callEvs : List Event :=
    if tr.2 = 0 then [] else [Event.transCall text detected target]
  let head : Event :=
    Event.line ("\n[" ++ (_get_language_name env detected).toUpper ++ "] " ++ text)
  match tr.1 with
  | some t =>
    if t ≠ "" ∧ detected ≠ target then
      (s1, callEvs ++
        [head,
         Event.line ("[" ++ (_get_language_name env target).toUpper ++ "] " ++ t),
         Event.speak t target,
         Event.line sepLine])
    else
      (s1, callEvs ++ [head, Event.line "(No translation needed)", Event.line sepLine])
  | none =>
      (s1, callEvs ++ [head, Event.line "(No translation needed)", Event.line sepLine])

/-- One iteration body of `_process_audio_queue` after an utterance was taken
from the queue, executed under the processing lock: recognise, detect, update
`last_detected_lang`, then report and speak via `report_step`.  Returns the
updated state and the trace of observable events.  The `if text:` and
`if detected_lang:` guards of the Python code test truthiness, so an empty
string takes the same branch as `None`. -/
def process_cycle (env : Env α) (s : TranslatorState) (a : α) :
    TranslatorState × List Event :=
  match _recognize_speech env a with
  | none => (s, [])
  | some text =>
    if text = "" then (s, [])
    else
      match _detect_language env s text with
      | none => (s, unknownEvents text)
      | some detected =>
        if detected = "" then (s, unknownEvents text)
        else report_step env { s with last_detected_lang := some detected } text detected

/-- `translate_text_with_detection`: detect, and when the detected code is
truthy resolve the target language and translate; otherwise return the all-
`None` triple.  The method does not touch `last_detected_lang`. -/
def translate_text_with_detection (env : Env α) (s : TranslatorState) (text : String) :
    Option String × Option String × Option String :=
  match _detect_language env s text with
  | some detected =>
    if detected = "" then (none, none, none)
    else
      let target := _determine_target_language s detected
      (some detected, some target, (_translate_text env text detected target).1)
  | none => (none, none, none)

/-- Sequential processing of a list of utterances, in order: the composition
of `process_cycle` steps with concatenated event traces. -/
def runAll (env : Env α) (s : TranslatorState) : List α → TranslatorState × List Event
  | [] => (s, [])
  | a :: as =>
    let p := process_cycle env s a
    let q := runAll env p.1 as
    (q.1, p.2 ++ q.2)

/-- The `while self.is_listening` loop of `_process_audio_queue` over a trace
of iterations.  Each iteration records the value of the `is_listening` flag
observed at the loop head and the result of the queue read (`none` =
`queue.Empty`, which just continues the loop).  The surrounding
`try/except: continue` of the Python loop is reflected in `process_cycle`
being a total function for every environment, faults included. -/
def runLoop (env : Env α) (s : TranslatorState) :
    List (Bool × Option α) → TranslatorState × List Event
  | [] => (s, [])
  | (flag, item) :: rest =>
    if flag then
      match item with
      | none => runLoop env s rest
      | some a =>
        let p := process_cycle env s a
        let q := runLoop env p.1 rest
        (q.1, p.2 ++ q.2)
    else (s, [])

/-- An operation on the shared audio queue: the capture thread's `put` or the
processing thread's `get`. -/
inductive QOp (α : Type) where
  | put (a : α)
  | get

/-- The FIFO queue (`queue.Queue`) under a sequence of operations, starting
from queue contents `q`: `put` appends at the back, `get` takes the front and
on an empty queue does nothing (the consumer sees `queue.Empty` and retries).
Returns the final queue contents and the list of dequeued items in order. -/
def runQueue : List α → List (QOp α) → List α × List α
  | q, [] => (q, [])
  | q, QOp.put a :: rest => runQueue (q ++ [a]) rest
  | [], QOp.get :: rest => runQueue [] rest
  | a :: q, QOp.get :: rest =>
    let p := runQueue q rest
    (p.1, a :: p.2)

/-- The items enqueued by a sequence of queue operations, in order. -/
def putsOf : List (QOp α) → List α
  | [] => []
  | QOp.put a :: rest => a :: putsOf rest
  | QOp.get :: rest => putsOf rest

/-- Detectors are well formed when every language code they return is
non-empty, as the service contract promises a language code. -/
def detectorsWellFormed (env : Env α) : Prop :=
  (∀ t l, env.langdetect t = some l → l ≠ "") ∧
  (∀ t l c, env.googleDetect t = some (l, c) → l ≠ "")

/-- A concrete environment in which the translation service returns the text
unchanged for a genuine language pair: recognised text is the word taxi,
detected as French, default target Spanish, and fr-to-es translation of
taxi is again taxi. -/
def envUnchanged : Env Unit :=
  { recognize := fun _ => some "taxi",
    langdetect := fun _ => some "fr",
    googleDetect := fun _ => none,
    googleTranslate := fun t _ _ => some t,
    langNames := fun _ => none }

/-- A concrete environment for the ordinary successful-translation path:
Spanish speech with default target Spanish translates to English. -/
def envChanged : Env Unit :=
  { recognize := fun _ => some "hola",
    langdetect := fun _ => some "es",
    googleDetect := fun _ => none,
    googleTranslate := fun _ _ _ => some "hello",
    langNames := fun _ => none }

/-- A concrete environment whose translation service always faults. -/
def envTransFail : Env Unit :=
  { recognize := fun _ => some "bonjour",
    langdetect := fun _ => some "fr",
    googleDetect := fun _ => none,
    googleTranslate := fun _ _ _ => none,
    langNames := fun _ => none }

/-- A concrete environment realising scenario D: the primary detector fails
and the fallback reports confidence one half, below the 0.8 threshold. -/
def envLowConf : Env Unit :=
  { recognize := fun _ => some "hola amigo",
    langdetect := fun _ => none,
    googleDetect := fun _ => some ("es", 1/2),
    googleTranslate := fun _ _ _ => none,
    langNames := fun _ => none }

/- Helper lemmas shared by the claim theorems. -/

/-- `_determine_target_language` reads only the default target, so updating
`last_detected_lang` does not change it. -/
theorem determine_update (s : TranslatorState) (o : Option String) (x : String) :
    _determine_target_language { s with last_detected_lang := o } x =
      _determine_target_language s x := rfl

/-- Under successful recognition and truthy detection, one cycle is exactly
the report step on the updated state. -/
theorem process_cycle_detected (env : Env α) (s : TranslatorState) (a : α)
    (text detected : String)
    (hrec : env.recognize a = some text) (htext : text ≠ "")
    (hdet : _detect_language env s text = some detected) (hne : detected ≠ "") :
    process_cycle env s a =
      report_step env { s with last_detected_lang := some detected } text detected := by
  simp only [process_cycle, _recognize_speech, hrec, if_neg htext, hdet, if_neg hne]

/-- The report step returns the state it was given. -/
theorem report_step_fst (env : Env α) (s1 : TranslatorState) (text detected : String) :
    (report_step env s1 text detected).1 = s1 := by
  simp only [report_step]
  cases h1 : (_translate_text env text detected (_determine_target_language s1 detected)).1 with
  | none => rfl
  | some t =>
      by_cases hc : t ≠ "" ∧ detected ≠ _determine_target_language s1 detected <;> simp [hc]

/-- The report step emits a speech-synthesis event exactly when the
translation result is truthy and the detected language differs from the
resolved target. -/
theorem report_step_speak_iff (env : Env α) (s1 : TranslatorState) (text detected : String) :
    (∃ t l, Event.speak t l ∈ (report_step env s1 text detected).2) ↔
      (truthy (_translate_text env text detected
          (_determine_target_language s1 detected)).1 = true ∧
        detected ≠ _determine_target_language s1 detected) := by
  simp only [report_step]
  cases h1 : (_translate_text env text detected (_determine_target_language s1 detected)).1 with
  | none =>
      by_cases hc : (_translate_text env text detected
          (_determine_target_language s1 detected)).2 = 0 <;>
        simp [hc, truthy]
  | some t =>
      by_cases hcond : t ≠ "" ∧ detected ≠ _determine_target_language s1 detected
      · by_cases hc : (_translate_text env text detected
            (_determine_target_language s1 detected)).2 = 0 <;>
          simp [hc, hcond, truthy, hcond.1, hcond.2]
      · by_cases hc : (_translate_text env text detected
            (_determine_target_language s1 detected)).2 = 0 <;>
        · simp only [if_neg hcond, hc]
          simp [truthy, hc]
          intro ht
          rcases not_and_or.mp hcond with h | h
          · exact absurd (not_not.mp h) ht
          · exact not_not.mp h

/-- On a faulting translation (`None` result) the report step prints the
source line and the no-translation notification after the one service call,
and the fault implies the languages differed. -/
theorem report_step_trans_fail (env : Env α) (s1 : TranslatorState) (text detected : String)
    (hfail : (_translate_text env text detected
        (_determine_target_language s1 detected)).1 = none) :
    (report_step env s1 text detected).2 =
      [Event.transCall text detected (_determine_target_language s1 detected),
       Event.line ("\n[" ++ (_get_language_name env detected).toUpper ++ "] " ++ text),
       Event.line "(No translation needed)",
       Event.line sepLine] := by
  have hdt : detected ≠ _determine_target_language s1 detected := by
    intro h
    have hsome : (_translate_text env text detected
        (_determine_target_language s1 detected)).1 = some text := by
      simp only [_translate_text, if_pos h]
    rw [hsome] at hfail
    exact Option.noConfusion hfail
  have h2 : (_translate_text env text detected
      (_determine_target_language s1 detected)).2 = 1 := by
    simp only [_translate_text, if_neg hdt]
  simp only [report_step, hfail, h2]
  simp

/-- A truthy `_detect_language` result is non-empty when the detectors are
well formed. -/
theorem detect_wellFormed (env : Env α) (s : TranslatorState) (text detected : String)
    (hwf : detectorsWellFormed env)
    (hdet : _detect_language env s text = some detected) : detected ≠ "" := by
  unfold _detect_language at hdet
  cases hp : env.langdetect text with
  | some l =>
      rw [hp] at hdet
      simp only [Option.some.injEq] at hdet
      exact hdet ▸ hwf.1 text l hp
  | none =>
      rw [hp] at hdet
      cases hg : env.googleDetect text with
      | none => rw [hg] at hdet; exact Option.noConfusion hdet
      | some p =>
          rw [hg] at hdet
          by_cases hc : p.2 > s.detection_confidence
          · simp only [hc, if_true] at hdet
            simp only [Option.some.injEq] at hdet
            exact hdet ▸ hwf.2 text p.1 p.2 (by rw [hg])
          · simp only [hc, if_false] at hdet
            exact Option.noConfusion hdet

/-- The dequeued items followed by the remaining queue contents are the
initial contents followed by the enqueued items, for every op interleaving. -/
theorem runQueue_eq (ops : List (QOp α)) :
    ∀ q : List α, (runQueue q ops).2 ++ (runQueue q ops).1 = q ++ putsOf ops := by
  induction ops with
  | nil => intro q; simp [runQueue, putsOf]
  | cons op rest ih =>
      intro q
      cases op with
      | put a =>
          simp only [runQueue, putsOf]
          rw [ih (q ++ [a])]
          simp
      | get =>
          cases q with
          | nil => simp only [runQueue, putsOf]; rw [ih []]
          | cons a q =>
              simp only [runQueue, putsOf]
              rw [List.cons_append, ih q]
              rfl

/- Claim theorems. -/

/-- C1: the language policy is a pure function of the detected source language
and the configured default target: the resolved target is English when the
source equals the default, and the default otherwise. -/
theorem determine_target_policy (s : TranslatorState) (x : String) :
    _determine_target_language s s.default_target_lang = "en" ∧
    (x ≠ s.default_target_lang → _determine_target_language s x = s.default_target_lang) := by
  constructor
  · simp [_determine_target_language]
  · intro hx
    simp [_determine_target_language, hx]

/-- Witness for C1 at a concrete state: default target Spanish, source
French resolves to Spanish, source Spanish resolves to English. -/
theorem determine_target_policy_witness :
    _determine_target_language (initState "es") "fr" = "es" :=
  (determine_target_policy (initState "es") "fr").2 (by decide)

/-- C2: when the primary detector fails and the fallback detection call
returns a language with confidence `c`, the fallback result is accepted and
its language returned exactly when `c` is strictly greater than the configured
threshold; in particular `c` equal to the threshold yields `None`. -/
theorem fallback_confidence_gate (env : Env α) (s : TranslatorState)
    (text lang : String) (c : ℚ)
    (hp : env.langdetect text = none)
    (hf : env.googleDetect text = some (lang, c)) :
    (_detect_language env s text = some lang ↔ c > s.detection_confidence) ∧
    (c = s.detection_confidence → _detect_language env s text = none) := by
  constructor
  · constructor
    · intro h
      by_contra hc
      simp [_detect_language, hp, hf, hc] at h
    · intro hc
      simp [_detect_language, hp, hf, hc]
  · intro hc
    simp [_detect_language, hp, hf, hc]

/-- Witness for C2 at a concrete environment: fallback confidence exactly at
the default threshold 0.8 is rejected and detection returns `None`. -/
theorem fallback_confidence_gate_witness :
    _detect_language
      { recognize := fun (_ : Unit) => none,
        langdetect := fun _ => none,
        googleDetect := fun _ => some ("fr", 8/10),
        googleTranslate := fun _ _ _ => none,
        langNames := fun _ => none }
      (initState "es") "bonjour" = none :=
  (fallback_confidence_gate _ (initState "es") "bonjour" "fr" (8/10) rfl rfl).2 rfl

/-- C3: for every text and every language pair with equal source and target,
`_translate_text` returns the original text unchanged and performs zero calls
to the external translation service. -/
theorem translate_identity_short_circuit (env : Env α) (text lang : String) :
    _translate_text env text lang lang = (some text, 0) := by
  simp [_translate_text]

/-- C4 counterexample: with detected language fr and default target es the
translation service returns the text unchanged, yet the cycle still invokes
speech synthesis — so synthesis is not equivalent to the text having changed. -/
theorem speak_despite_unchanged_text :
    (_translate_text envUnchanged "taxi" "fr" "es").1 = some "taxi" ∧
    Event.speak "taxi" "es" ∈ (process_cycle envUnchanged (initState "es") ()).2 := by
  exact ⟨by decide, by decide⟩

/-- C4 amended: in a cycle that reaches the report-and-speak step, speech
synthesis is invoked if and only if the translation result is truthy
(non-`None` and non-empty) and the detected language differs from the
resolved target language — not if and only if the text actually changed. -/
theorem speak_iff_truthy_and_lang_differs (env : Env α) (s : TranslatorState)
    (a : α) (text detected : String)
    (hrec : env.recognize a = some text) (htext : text ≠ "")
    (hdet : _detect_language env s text = some detected) (hne : detected ≠ "") :
    ((∃ t l, Event.speak t l ∈ (process_cycle env s a).2) ↔
      (truthy (_translate_text env text detected
          (_determine_target_language s detected)).1 = true ∧
        detected ≠ _determine_target_language s detected)) := by
  rw [process_cycle_detected env s a text detected hrec htext hdet hne,
    report_step_speak_iff, determine_update]

/-- Witness for the amended C4: in `envChanged` the translation is truthy and
the languages differ, so a speech-synthesis event occurs. -/
theorem speak_iff_truthy_and_lang_differs_witness :
    ∃ t l, Event.speak t l ∈ (process_cycle envChanged (initState "es") ()).2 :=
  (speak_iff_truthy_and_lang_differs envChanged (initState "es") () "hola" "es"
    rfl (by decide) rfl (by decide)).mpr ⟨by decide, by decide⟩

/-- C5: when detection succeeded but the translation stage fails (the service
faults, the result is `None`), the cycle emits the transcribed source text
followed by the no-translation notification line after the one failed service
call, and performs no speech synthesis; the cycle returns normally so the
loop continues. -/
theorem translation_failure_reports_source (env : Env α) (s : TranslatorState)
    (a : α) (text detected : String)
    (hrec : env.recognize a = some text) (htext : text ≠ "")
    (hdet : _detect_language env s text = some detected) (hne : detected ≠ "")
    (hfail : (_translate_text env text detected
        (_determine_target_language s detected)).1 = none) :
    (process_cycle env s a).2 =
      [Event.transCall text detected (_determine_target_language s detected),
       Event.line ("\n[" ++ (_get_language_name env detected).toUpper ++ "] " ++ text),
       Event.line "(No translation needed)",
       Event.line sepLine] ∧
    ∀ t l, Event.speak t l ∉ (process_cycle env s a).2 := by
  have hev : (process_cycle env s a).2 =
      [Event.transCall text detected (_determine_target_language s detected),
       Event.line ("\n[" ++ (_get_language_name env detected).toUpper ++ "] " ++ text),
       Event.line "(No translation needed)",
       Event.line sepLine] := by
    rw [process_cycle_detected env s a text detected hrec htext hdet hne,
      report_step_trans_fail, determine_update]
    rw [determine_update]
    exact hfail
  refine ⟨hev, ?_⟩
  intro t l
  rw [hev]
  simp

/-- Witness for C5: with a faulting translation service the cycle prints the
French source text and the notification line, after the one failed call. -/
theorem translation_failure_reports_source_witness :
    (process_cycle envTransFail (initState "es") ()).2 =
      [Event.transCall "bonjour" "fr" (_determine_target_language (initState "es") "fr"),
       Event.line ("\n[" ++ (_get_language_name envTransFail "fr").toUpper ++ "] " ++ "bonjour"),
       Event.line "(No translation needed)",
       Event.line sepLine] :=
  (translation_failure_reports_source envTransFail (initState "es") () "bonjour" "fr"
    rfl (by decide) rfl (by decide) (by decide)).1

/-- C6: when language detection yields no accepted result (falsy), the cycle
emits the unknown-language notification `[UNKNOWN LANGUAGE] <text>` with the
raw transcribed text, makes no translation-service call, performs no speech
synthesis, leaves the state unchanged, and returns normally. -/
theorem unknown_language_outcome (env : Env α) (s : TranslatorState)
    (a : α) (text : String)
    (hrec : env.recognize a = some text) (htext : text ≠ "")
    (hdet : truthy (_detect_language env s text) = false) :
    process_cycle env s a = (s, unknownEvents text) ∧
    Event.line ("\n[UNKNOWN LANGUAGE] " ++ text) ∈ (process_cycle env s a).2 ∧
    (∀ t l, Event.speak t l ∉ (process_cycle env s a).2) ∧
    (∀ t src dst, Event.transCall t src dst ∉ (process_cycle env s a).2) := by
  have hmain : process_cycle env s a = (s, unknownEvents text) := by
    rcases hd : _detect_language env s text with _ | d
    · simp [process_cycle, _recognize_speech, hrec, htext, hd]
    · rw [hd] at hdet
      simp only [truthy, decide_eq_false_iff_not, not_not] at hdet
      simp [process_cycle, _recognize_speech, hrec, htext, hd, hdet]
  refine ⟨hmain, ?_, ?_, ?_⟩
  · rw [hmain]; simp [unknownEvents]
  · intro t l; rw [hmain]; simp [unknownEvents]
  · intro t src dst; rw [hmain]; simp [unknownEvents]

/-- Witness for C6, realising scenario D: fallback confidence one half is
rejected against the 0.8 threshold, the cycle prints the unknown-language
notification and changes nothing. -/
theorem unknown_language_outcome_witness :
    process_cycle envLowConf (initState "es") () = (initState "es", unknownEvents "hola amigo") := by
  have hnone : _detect_language envLowConf (initState "es") "hola amigo" = none := by
    simp only [_detect_language, envLowConf, initState]
    rw [if_neg]
    norm_num
  exact (unknown_language_outcome envLowConf (initState "es") () "hola amigo"
    rfl (by decide) (by rw [hnone]; rfl)).1

/-- C7: for every environment — including ones where every external service
faults on every utterance — the processing loop runs exactly the utterances
seen before the first iteration at which the cleared `is_listening` flag is
observed: no per-utterance fault ever terminates it, and it stops exactly at
the stop signal. -/
theorem loop_exits_only_on_stop (env : Env α) (s : TranslatorState)
    (tr : List (Bool × Option α)) :
    runLoop env s tr =
      runAll env s ((tr.takeWhile fun p => p.1).filterMap fun p => p.2) := by
  induction tr generalizing s with
  | nil => rfl
  | cons hd rest ih =>
      rcases hd with ⟨flag, item⟩
      cases flag with
      | false => simp [runLoop, List.takeWhile_cons, List.filterMap, runAll]
      | true =>
          cases item with
          | none => simp [runLoop, List.takeWhile_cons, List.filterMap_cons, ih]
          | some a =>
              simp [runLoop, List.takeWhile_cons, List.filterMap_cons, runAll, ih]

/-- C8: the audio queue is strict FIFO: for every interleaving of capture-side
puts and processing-side gets starting from the empty queue, the dequeued
items followed by the still-queued items are exactly the enqueued items in
capture order; in particular the dequeue order is a prefix of the enqueue
order and nothing is reordered or dropped by the queue. -/
theorem fifo_dequeue_order (ops : List (QOp α)) :
    (runQueue ([] : List α) ops).2 ++ (runQueue ([] : List α) ops).1 = putsOf ops ∧
    ∃ rest, (runQueue ([] : List α) ops).2 ++ rest = putsOf ops := by
  have h := runQueue_eq ops []
  simp only [List.nil_append] at h
  exact ⟨h, (runQueue ([] : List α) ops).1, h⟩

/-- C9: `last_detected_lang` is advisory: the events of a cycle do not depend
on its stored value, and on a successful (truthy) detection the cycle
overwrites it with the just-detected language code — the policy decision reads
the just-detected code, not the stored field. -/
theorem last_detected_advisory (env : Env α) (s : TranslatorState)
    (o : Option String) (a : α) :
    ((process_cycle env { s with last_detected_lang := o } a).2 =
      (process_cycle env s a).2) ∧
    (∀ text detected, env.recognize a = some text → text ≠ "" →
      _detect_language env s text = some detected → detected ≠ "" →
      (process_cycle env s a).1.last_detected_lang = some detected) := by
  constructor
  · rcases hr : env.recognize a with _ | text
    · simp [process_cycle, _recognize_speech, hr]
    · by_cases ht : text = ""
      · simp [process_cycle, _recognize_speech, hr, ht]
      · have hdd : _detect_language env { s with last_detected_lang := o } text =
            _detect_language env s text := rfl
        rcases hd : _detect_language env s text with _ | d
        · simp [process_cycle, _recognize_speech, hr, ht, hd, hdd]
        · by_cases hne : d = ""
          · simp [process_cycle, _recognize_speech, hr, ht, hd, hdd, hne]
          · rw [process_cycle_detected env { s with last_detected_lang := o } a text d hr ht
                (hdd.trans hd) hne,
              process_cycle_detected env s a text d hr ht hd hne]
  · intro text detected hrec htext hdet hne
    rw [process_cycle_detected env s a text detected hrec htext hdet hne, report_step_fst]

/-- Witness for C9: a cycle of `envChanged` started with a stale stored
language overwrites `last_detected_lang` with the just-detected Spanish. -/
theorem last_detected_advisory_witness :
    (process_cycle envChanged (initState "es") ()).1.last_detected_lang = some "es" :=
  (last_detected_advisory envChanged (initState "es") (some "zz") ()).2 "hola" "es"
    rfl (by decide) rfl (by decide)

/-- C10: for well-formed detectors, `translate_text_with_detection` returns
the all-`None` triple exactly when detection fails; on success it returns the
detected language, a target that is always either English or the configured
default, and the translation result, which may itself be `None` when the
translation service faults. -/
theorem translate_with_detection_spec (env : Env α) (s : TranslatorState)
    (text : String) (hwf : detectorsWellFormed env) :
    (translate_text_with_detection env s text = (none, none, none) ↔
      _detect_language env s text = none) ∧
    (∀ detected, _detect_language env s text = some detected →
      (translate_text_with_detection env s text).1 = some detected ∧
      ((translate_text_with_detection env s text).2.1 = some "en" ∨
        (translate_text_with_detection env s text).2.1 = some s.default_target_lang) ∧
      (translate_text_with_detection env s text).2.2 =
        (_translate_text env text detected (_determine_target_language s detected)).1) := by
  constructor
  · constructor
    · intro h
      rcases hd : _detect_language env s text with _ | d
      · rfl
      · have hne := detect_wellFormed env s text d hwf hd
        simp [translate_text_with_detection, hd, hne] at h
    · intro hd
      simp [translate_text_with_detection, hd]
  · intro d hd
    have hne := detect_wellFormed env s text d hwf hd
    have hval : translate_text_with_detection env s text =
        (some d, some (_determine_target_language s d),
          (_translate_text env text d (_determine_target_language s d)).1) := by
      simp [translate_text_with_detection, hd, hne]
    rw [hval]
    refine ⟨rfl, ?_, rfl⟩
    by_cases hc : d = s.default_target_lang
    · left; simp [_determine_target_language, hc]
    · right; simp [_determine_target_language, hc]

/-- Witness for C10: in `envChanged` the detectors are well formed, detection
of hola succeeds with Spanish, and the first component is that code. -/
theorem translate_with_detection_spec_witness :
    (translate_text_with_detection envChanged (initState "es") "hola").1 = some "es" := by
  have hwf : detectorsWellFormed envChanged := by
    constructor
    · intro t l h
      simp only [envChanged] at h
      simp only [Option.some.injEq] at h
      rw [← h]
      decide
    · intro t l c h
      simp only [envChanged] at h
      exact Option.noConfusion h
  exact ((translate_with_detection_spec envChanged (initState "es") "hola" hwf).2
    "es" rfl).1

end AutoTranslator
